import Mathlib

/-!
Shallow embedding of the deciders.rs combinator library.

The library models business logic as pure "deciders": a decider kind offers
four associated functions, `decide : (command, state) -> events`,
`evolve : (state, event) -> state`, `initial_state`, and `is_terminal`.
A Rust decider kind (a type implementing `Decider<C, E, So, Si>`) is
embedded as a value of the Lean structure `Decider C E So Si`, whose fields
are the four associated functions.  Each combinator of deciders.rs
(`ComposedDeciders`, `ManyDecider`, `AdaptedDecider`, `MappedDecider`,
`Map2Deciders`, `AppliedDecider`) becomes a Lean function building a new
`Decider` value out of its constituents, translated clause for clause from
the Rust `impl` blocks.

`HashMap<String, S>` (the state of `ManyDecider`) is embedded as an
association list `List (String × S)` with the usual get/insert semantics
(`hmGet`, `hmInsert`); maps built by the code never hold a duplicate key,
and all properties proved here are stated through `hmGet`, which matches
`HashMap::get` regardless of entry order.

Rust panics are modeled with `Except String`: the `Bulb` leaf decider from
the integration tests has an explicit `panic!` arm in `decide`, and its
`evolve` performs a `u64` subtraction `remaining_uses - 1` that panics with
"attempt to subtract with overflow" when `remaining_uses == 0` under the
debug-assertion profile that the repository's test suite builds with (in a
release build it would instead wrap to `2^64 - 1`).  Total Rust functions
are embedded as total Lean functions.
-/

set_option autoImplicit false

namespace DecidersRs

/-- The `Either` enum of src/utilities.rs: a value of one of two types. -/
inductive Either (L R : Type) where
  | left (l : L)
  | right (r : R)
  deriving DecidableEq

/-- The four associated functions of the Rust trait
`Decider<C, E, So, Si>` (src/deciders.rs).  `decide` takes the command and
the input state and returns the event list; `evolve` folds one event into
the state; `initial_state` is the state before any event; `is_terminal`
says whether the decider is done. -/
structure Decider (C E So Si : Type) where
  decide : C → Si → List E
  evolve : Si → E → So
  initial_state : So
  is_terminal : Si → Bool

/-- `ComposedDeciders` (src/deciders.rs): the parallel union of two
deciders over a tagged union of commands and events and a paired state. -/
def ComposedDeciders {C1 E1 S1 C2 E2 S2 : Type}
    (D1 : Decider C1 E1 S1 S1) (D2 : Decider C2 E2 S2 S2) :
    Decider (Either C1 C2) (Either E1 E2) (S1 × S2) (S1 × S2) where
  decide command state :=
    match command with
    | .left l => (D1.decide l state.1).map Either.left
    | .right r => (D2.decide r state.2).map Either.right
  evolve state event :=
    match event with
    | .left e => (D1.evolve state.1 e, state.2)
    | .right e => (state.1, D2.evolve state.2 e)
  initial_state := (D1.initial_state, D2.initial_state)
  is_terminal state := D1.is_terminal state.1 && D2.is_terminal state.2

/-- `HashMap::get` on the association-list model of
`HashMap<String, S>`: the value stored under the key, if any. -/
def hmGet {S : Type} : List (String × S) → String → Option S
  | [], _ => none
  | (k, v) :: rest, key => if k = key then some v else hmGet rest key

/-- `HashMap::insert` on the association-list model: replace the value
under an existing key, or add the entry when the key is absent. -/
def hmInsert {S : Type} : List (String × S) → String → S → List (String × S)
  | [], key, v => [(key, v)]
  | (k, w) :: rest, key, v =>
      if k = key then (key, v) :: rest else (k, w) :: hmInsert rest key v

/-- `ManyDecider` (src/deciders.rs): `N` named instances of one decider
kind; commands and events are tagged with a name, the state maps each name
to that instance's state, and an unseen name defaults to
`D::initial_state()`. -/
def ManyDecider {C E S : Type} (D : Decider C E S S) :
    Decider (String × C) (String × E) (List (String × S)) (List (String × S)) where
  decide p states :=
    let state := match hmGet states p.1 with
      | some s => s
      | none => D.initial_state
    (D.decide p.2 state).map (fun e => (p.1, e))
  evolve states p :=
    let state := match hmGet states p.1 with
      | some s => s
      | none => D.initial_state
    let new_state := D.evolve state p.2
    hmInsert states p.1 new_state
  initial_state := []
  is_terminal states := states.all (fun q => D.is_terminal q.2)

/-- `AdaptedDecider` (src/deciders.rs): full type substitution around a
wrapped decider `D`.  `CC` is the fallible command converter, `ENC` the
fallible event-in converter, `EDC` the infallible event-out converter and
`SC` the infallible state converter; the converter traits are embedded as
plain functions, fallible ones returning `Option`. -/
def AdaptedDecider {Cd Ed Sd Cn En Sn : Type} (D : Decider Cd Ed Sd Sd)
    (CC : Cn → Option Cd) (ENC : En → Option Ed)
    (EDC : Ed → En) (SC : Sn → Sd) :
    Decider Cn En Sd Sn where
  decide command state :=
    match CC command with
    | some c => (D.decide c (SC state)).map EDC
    | none => []
  evolve state event :=
    match ENC event with
    | some e => D.evolve (SC state) e
    | none => SC state
  initial_state := D.initial_state
  is_terminal state := D.is_terminal (SC state)

/-- `MappedDecider` (src/deciders.rs): reshape only the produced state via
the infallible converter `SC`. -/
def MappedDecider {C E Sdo Sdi Sn : Type} (D : Decider C E Sdo Sdi)
    (SC : Sdo → Sn) : Decider C E Sn Sdi where
  decide := D.decide
  evolve state event := SC (D.evolve state event)
  initial_state := SC D.initial_state
  is_terminal := D.is_terminal

/-- `Map2Deciders` (src/deciders.rs): fan-out combination of two deciders
sharing command, event and input-state types; the outputs of `decide` are
concatenated (`D1` first) and the two evolved states combined by `SC`. -/
def Map2Deciders {C E Si S1 S2 So : Type}
    (D1 : Decider C E S1 Si) (D2 : Decider C E S2 Si)
    (SC : S1 × S2 → So) : Decider C E So Si where
  decide command state := D1.decide command state ++ D2.decide command state
  evolve state event :=
    let s1 := D1.evolve state event
    let s2 := D2.evolve state event
    SC (s1, s2)
  initial_state := SC (D1.initial_state, D2.initial_state)
  is_terminal state := D1.is_terminal state && D2.is_terminal state

/-- `AppliedDecider` (src/deciders.rs): `FD` produces a function state,
applied to the state produced by `D`; events of `decide` are concatenated
(`FD` first). -/
def AppliedDecider {C E Si Sd So : Type}
    (FD : Decider C E (Sd → So) Si) (D : Decider C E Sd Si) :
    Decider C E So Si where
  decide command state := FD.decide command state ++ D.decide command state
  evolve state event :=
    let s1 := FD.evolve state event
    let s2 := D.evolve state event
    s1 s2
  initial_state := FD.initial_state D.initial_state
  is_terminal state := FD.is_terminal state && D.is_terminal state

/-- `InMemoryRunner` (src/utilities.rs): owns the current state of one
decider instance. -/
structure InMemoryRunner (C E S : Type) (D : Decider C E S S) where
  state : S

namespace InMemoryRunner

/-- `InMemoryRunner::new`: start at the decider's initial state. -/
def new {C E S : Type} (D : Decider C E S S) : InMemoryRunner C E S D :=
  ⟨D.initial_state⟩

/-- `InMemoryRunner::with_state`: start pre-seeded at a given state. -/
def with_state {C E S : Type} (D : Decider C E S S) (state : S) :
    InMemoryRunner C E S D :=
  ⟨state⟩

/-- `InMemoryRunner::get_state`: read the current state. -/
def get_state {C E S : Type} {D : Decider C E S S}
    (r : InMemoryRunner C E S D) : S :=
  r.state

/-- The `for e in events.iter()` loop body of `InMemoryRunner::command`:
reassign `state = evolve(state, e)` for each event in order. -/
def commandLoop {C E S : Type} (D : Decider C E S S) :
    S → List E → S
  | state, [] => state
  | state, e :: rest => commandLoop D (D.evolve state e) rest

/-- `InMemoryRunner::command`: run `decide` on the current state, fold
every produced event through `evolve` in order, and return the events
(paired here with the updated runner, since the Rust method mutates
`self`). -/
def command {C E S : Type} {D : Decider C E S S}
    (r : InMemoryRunner C E S D) (c : C) :
    List E × InMemoryRunner C E S D :=
  let events := D.decide c r.state
  (events, ⟨commandLoop D r.state events⟩)

end InMemoryRunner

/-- The `NeutralDecider` of tests/integrations.rs: unit types everywhere,
no events, terminal. -/
def NeutralDecider : Decider Unit Unit Unit Unit where
  decide _ _ := []
  evolve _ _ := ()
  initial_state := ()
  is_terminal _ := true

namespace Cat

/-- Commands of the `cat` decider (tests/integrations.rs). -/
inductive Command where
  | WakeUp
  | GetToSleep
  deriving DecidableEq

/-- Events of the `cat` decider. -/
inductive Event where
  | WokeUp
  | GotToSleep
  deriving DecidableEq

/-- States of the `cat` decider. -/
inductive State where
  | Awake
  | Asleep
  deriving DecidableEq

/-- The `Cat` decider kind (tests/integrations.rs), a total leaf decider. -/
def decider : Decider Command Event State State where
  decide command state :=
    match command, state with
    | .WakeUp, .Asleep => [Event.WokeUp]
    | .GetToSleep, .Awake => [Event.GotToSleep]
    | _, _ => []
  evolve state event :=
    match state, event with
    | .Awake, .GotToSleep => .Asleep
    | .Asleep, .WokeUp => .Awake
    | _, _ => state
  initial_state := .Awake
  is_terminal _ := false

end Cat

namespace Bulb

/-- Commands of the `bulb` decider (tests/integrations.rs). -/
inductive Command where
  | Fit (max_uses : Nat)
  | SwitchOn
  | SwitchOff
  deriving DecidableEq

/-- Events of the `bulb` decider. -/
inductive Event where
  | Fitted (max_uses : Nat)
  | SwitchedOn
  | SwitchedOff
  | Blew
  deriving DecidableEq

/-- On/off status of a working bulb. -/
inductive Status where
  | On
  | Off
  deriving DecidableEq

/-- States of the `bulb` decider; `remaining_uses` is a `u64` in the
source, embedded as `Nat` (all arithmetic on it stays far below `2^64`
except for the underflow recorded in `evolve`). -/
inductive State where
  | NotFitted
  | Working (status : Status) (remaining_uses : Nat)
  | Blown
  deriving DecidableEq

/-- `Bulb::decide` (tests/integrations.rs).  The Rust match has an
explicit `panic!("Bulb has already been fitted!")` arm for a `Fit` command
in any state other than `NotFitted`; the panic is embedded as
`Except.error`.  The two `SwitchOn` guards (`remaining_uses > 0`, then
`remaining_uses == 0`) are kept literally, followed by the catch-all
returning no events. -/
def decide (command : Command) (state : State) : Except String (List Event) :=
  match command, state with
  | .Fit max_uses, .NotFitted => .ok [Event.Fitted max_uses]
  | .Fit _, _ => .error "Bulb has already been fitted!"
  | .SwitchOn, .Working .Off remaining_uses =>
      if remaining_uses > 0 then .ok [Event.SwitchedOn]
      else if remaining_uses = 0 then .ok [Event.Blew]
      else .ok []
  | .SwitchOff, .Working .On _ => .ok [Event.SwitchedOff]
  | _, _ => .ok []

/-- `Bulb::evolve` (tests/integrations.rs).  The `SwitchedOn` arm computes
`remaining_uses - 1` on a `u64`; under the debug-assertion profile used by
the test suite this panics with "attempt to subtract with overflow" when
`remaining_uses == 0` (a release build would wrap to `2^64 - 1` instead).
That panic is embedded as `Except.error`; every other arm is total. -/
def evolve (state : State) (event : Event) : Except String State :=
  match state, event with
  | .NotFitted, .Fitted max_uses => .ok (State.Working .Off max_uses)
  | .Working _ remaining_uses, .SwitchedOn =>
      if remaining_uses = 0 then .error "attempt to subtract with overflow"
      else .ok (State.Working .On (remaining_uses - 1))
  | .Working _ remaining_uses, .SwitchedOff =>
      .ok (State.Working .Off remaining_uses)
  | .Working _ _, .Blew => .ok State.Blown
  | _, _ => .ok state

/-- `Bulb::initial_state`. -/
def initial_state : State := .NotFitted

/-- `Bulb::is_terminal`: true exactly in the `Blown` state. -/
def is_terminal (state : State) : Bool :=
  match state with
  | .Blown => true
  | _ => false

end Bulb

end DecidersRs

namespace DecidersRs

/-- The `for` loop of `InMemoryRunner::command` is the left fold of
`evolve` over the event list. -/
theorem commandLoop_eq_foldl {C E S : Type} (D : Decider C E S S) :
    ∀ (es : List E) (s : S),
      InMemoryRunner.commandLoop D s es = es.foldl D.evolve s := by
  intro es
  induction es with
  | nil => intro s; rfl
  | cons e rest ih =>
      intro s
      simp only [InMemoryRunner.commandLoop, List.foldl_cons]
      exact ih (D.evolve s e)

/-- C1: for every decider kind `D` with equal input and output state
types, every current runner state `s` and command `c`,
`InMemoryRunner::command(c)` returns exactly the event sequence
`D::decide(c, s)`, and afterwards `get_state()` returns the left fold of
`D::evolve` over that event sequence, in order, starting from `s`. -/
theorem runner_command_returns_decide_and_folds {C E S : Type}
    (D : Decider C E S S) (s : S) (c : C) :
    ((InMemoryRunner.with_state D s).command c).1 = D.decide c s ∧
      ((InMemoryRunner.with_state D s).command c).2.get_state
        = (D.decide c s).foldl D.evolve s := by
  refine ⟨rfl, ?_⟩
  show InMemoryRunner.commandLoop D s (D.decide c s) = _
  exact commandLoop_eq_foldl D (D.decide c s) s

/-- C3: for `AdaptedDecider`, a command the fallible command converter
rejects yields no events in every state, and an event the fallible
event-in converter rejects makes `evolve` return exactly the
state-converted but otherwise unchanged inner state `SC(s)`; neither case
is an error. -/
theorem adapted_decider_fallible_noop {Cd Ed Sd Cn En Sn : Type}
    (D : Decider Cd Ed Sd Sd) (CC : Cn → Option Cd) (ENC : En → Option Ed)
    (EDC : Ed → En) (SC : Sn → Sd) (c : Cn) (e : En) (s : Sn)
    (hc : CC c = none) (he : ENC e = none) :
    (AdaptedDecider D CC ENC EDC SC).decide c s = [] ∧
      (AdaptedDecider D CC ENC EDC SC).evolve s e = SC s := by
  constructor
  · show (match CC c with
      | some c => (D.decide c (SC s)).map EDC
      | none => []) = []
    rw [hc]
  · show (match ENC e with
      | some e => D.evolve (SC s) e
      | none => SC s) = SC s
    rw [he]

/-- Witness for C3: a concrete `AdaptedDecider` around the `Cat` decider
whose command and event-in converters reject everything. -/
theorem adapted_decider_fallible_noop_witness :
    ((fun _ : Unit => (none : Option Cat.Command)) () = none ∧
      (fun _ : Unit => (none : Option Cat.Event)) () = none) ∧
    (AdaptedDecider Cat.decider (fun _ : Unit => none) (fun _ : Unit => none)
        (fun _ => ()) (fun _ : Unit => Cat.State.Awake)).decide () () = [] ∧
      (AdaptedDecider Cat.decider (fun _ : Unit => none) (fun _ : Unit => none)
        (fun _ => ()) (fun _ : Unit => Cat.State.Awake)).evolve () ()
        = (fun _ : Unit => Cat.State.Awake) () :=
  ⟨⟨rfl, rfl⟩,
    adapted_decider_fallible_noop Cat.decider (fun _ : Unit => none)
      (fun _ : Unit => none) (fun _ => ()) (fun _ : Unit => Cat.State.Awake)
      () () () rfl rfl⟩

/-- C4: `ComposedDeciders(A, B)` routes a left-tagged command only to `A`
against the first state component, left-tagging every event, and a
left-tagged event evolves only the first component; symmetric on the
right. -/
theorem composed_deciders_frame {C1 E1 S1 C2 E2 S2 : Type}
    (D1 : Decider C1 E1 S1 S1) (D2 : Decider C2 E2 S2 S2)
    (s1 : S1) (s2 : S2) (c1 : C1) (c2 : C2) (e1 : E1) (e2 : E2) :
    (ComposedDeciders D1 D2).decide (.left c1) (s1, s2)
        = (D1.decide c1 s1).map Either.left ∧
      (ComposedDeciders D1 D2).evolve (s1, s2) (.left e1)
        = (D1.evolve s1 e1, s2) ∧
      (ComposedDeciders D1 D2).decide (.right c2) (s1, s2)
        = (D2.decide c2 s2).map Either.right ∧
      (ComposedDeciders D1 D2).evolve (s1, s2) (.right e2)
        = (s1, D2.evolve s2 e2) :=
  ⟨rfl, rfl, rfl, rfl⟩

/-- C7: `Map2Deciders(D1, D2)` and `AppliedDecider(FD, D)` both produce,
for every command and input state, the concatenation of the first
sub-decider's events followed by the second's, both sub-deciders observing
the identical input state and command. -/
theorem map2_applied_decide_concat {C E Si S1 S2 So Sd So2 : Type}
    (D1 : Decider C E S1 Si) (D2 : Decider C E S2 Si) (SC : S1 × S2 → So)
    (FD : Decider C E (Sd → So2) Si) (D : Decider C E Sd Si)
    (c : C) (s : Si) :
    (Map2Deciders D1 D2 SC).decide c s = D1.decide c s ++ D2.decide c s ∧
      (AppliedDecider FD D).decide c s = FD.decide c s ++ D.decide c s :=
  ⟨rfl, rfl⟩

end DecidersRs

namespace DecidersRs

/-- `hmGet` after `hmInsert`: the inserted key reads back the inserted
value and every other key is unchanged. -/
theorem hmGet_hmInsert {S : Type} (k : String) (v : S) :
    ∀ (m : List (String × S)) (key : String),
      hmGet (hmInsert m k v) key = if k = key then some v else hmGet m key := by
  intro m
  induction m with
  | nil => intro key; simp [hmInsert, hmGet]
  | cons p rest ih =>
      intro key
      obtain ⟨a, w⟩ := p
      by_cases hak : a = k
      · by_cases hkey : k = key
        · simp [hmInsert, hmGet, hak, hkey]
        · have : ¬a = key := by rw [hak]; exact hkey
          simp [hmInsert, hmGet, hak, hkey, this]
      · by_cases hkey : a = key
        · have h1 : ¬k = key := by rw [← hkey]; exact fun h => hak h.symm
          have h2 : ¬key = k := fun h => h1 h.symm
          simp [hmInsert, hmGet, hak, hkey, h1, h2]
        · simp [hmInsert, hmGet, hak, hkey, ih]

/-- C5: `ManyDecider` on a name absent from the state mapping decides
exactly as a fresh `D` instance at `D::initial_state()`, with every event
tagged by that name. -/
theorem many_decider_fresh_name {C E S : Type} (D : Decider C E S S)
    (m : List (String × S)) (n : String) (c : C)
    (h : hmGet m n = none) :
    (ManyDecider D).decide (n, c) m
      = (D.decide c D.initial_state).map (fun e => (n, e)) := by
  simp only [ManyDecider, h]

/-- Witness for C5: the `Cat` decider under the unseen name "Floof" with
an empty state mapping produces the same event as a fresh `Cat`. -/
theorem many_decider_fresh_name_witness :
    hmGet ([] : List (String × Cat.State)) "Floof" = none ∧
      (ManyDecider Cat.decider).decide ("Floof", Cat.Command.GetToSleep) []
        = (Cat.decider.decide Cat.Command.GetToSleep
            Cat.decider.initial_state).map (fun e => ("Floof", e)) :=
  ⟨rfl, many_decider_fresh_name Cat.decider [] "Floof" Cat.Command.GetToSleep rfl⟩

/-- C6: `ManyDecider::evolve` updates exactly the named key (defaulting to
`D::initial_state()` when absent), leaves every other key's state
untouched, and the resulting key set is the old key set together with the
name. -/
theorem many_decider_evolve_pointwise {C E S : Type} (D : Decider C E S S)
    (m : List (String × S)) (n : String) (e : E) :
    (∀ k, hmGet ((ManyDecider D).evolve m (n, e)) k
        = if n = k
          then some (D.evolve (match hmGet m n with
              | some s => s
              | none => D.initial_state) e)
          else hmGet m k) ∧
      (∀ k, (hmGet ((ManyDecider D).evolve m (n, e)) k).isSome
        = ((hmGet m k).isSome || decide (n = k))) := by
  have hins : (ManyDecider D).evolve m (n, e)
      = hmInsert m n (D.evolve (match hmGet m n with
          | some s => s
          | none => D.initial_state) e) := rfl
  constructor
  · intro k
    rw [hins, hmGet_hmInsert]
  · intro k
    rw [hins, hmGet_hmInsert]
    by_cases h : n = k
    · simp [h]
    · simp [h]

/-- C8: for each combinator, `initial_state` is exactly the composition of
the constituents' initial states (a pair for `ComposedDeciders`, the empty
mapping for `ManyDecider`, the state combiner applied to the pair for
`Map2Deciders`, `FD`'s initial function applied to `D`'s initial state for
`AppliedDecider`), and `is_terminal` holds iff every constituent considers
its own portion of the state terminal, the empty mapping being vacuously
terminal for `ManyDecider`. -/
theorem combinator_initial_and_terminal
    {C1 E1 S1 C2 E2 S2 C E S Ci Ei Si Sa Sb So Sd So2 : Type}
    (D1 : Decider C1 E1 S1 S1) (D2 : Decider C2 E2 S2 S2)
    (D : Decider C E S S)
    (Dm1 : Decider Ci Ei Sa Si) (Dm2 : Decider Ci Ei Sb Si)
    (SC : Sa × Sb → So)
    (FD : Decider Ci Ei (Sd → So2) Si) (Dd : Decider Ci Ei Sd Si)
    (s1 : S1) (s2 : S2) (m : List (String × S)) (si : Si) :
    (ComposedDeciders D1 D2).initial_state
        = (D1.initial_state, D2.initial_state) ∧
      ((ComposedDeciders D1 D2).is_terminal (s1, s2) = true ↔
        (D1.is_terminal s1 = true ∧ D2.is_terminal s2 = true)) ∧
      (ManyDecider D).initial_state = [] ∧
      ((ManyDecider D).is_terminal m = true ↔
        ∀ p ∈ m, D.is_terminal p.2 = true) ∧
      (ManyDecider D).is_terminal [] = true ∧
      (Map2Deciders Dm1 Dm2 SC).initial_state
        = SC (Dm1.initial_state, Dm2.initial_state) ∧
      ((Map2Deciders Dm1 Dm2 SC).is_terminal si = true ↔
        (Dm1.is_terminal si = true ∧ Dm2.is_terminal si = true)) ∧
      (AppliedDecider FD Dd).initial_state
        = FD.initial_state Dd.initial_state ∧
      ((AppliedDecider FD Dd).is_terminal si = true ↔
        (FD.is_terminal si = true ∧ Dd.is_terminal si = true)) := by
  refine ⟨rfl, ?_, rfl, ?_, rfl, rfl, ?_, rfl, ?_⟩
  · show (D1.is_terminal s1 && D2.is_terminal s2) = true ↔ _
    simp
  · show m.all (fun q => D.is_terminal q.2) = true ↔ _
    simp [List.all_eq_true]
  · show (Dm1.is_terminal si && Dm2.is_terminal si) = true ↔ _
    simp
  · show (FD.is_terminal si && Dd.is_terminal si) = true ↔ _
    simp

end DecidersRs

namespace DecidersRs

/-- C2 (code bug): `Bulb::evolve` is not total: on the state
`Working { status: Off, remaining_uses: 0 }` with event `SwitchedOn` it
computes `0u64 - 1`, which panics with "attempt to subtract with overflow"
under the debug-assertion profile the test suite builds with (a release
build would wrap to `2^64 - 1`), contradicting the contract that `evolve`
never fails for any (state, event) pair. -/
theorem bulb_evolve_underflow_panics :
    Bulb.evolve (Bulb.State.Working Bulb.Status.Off 0) Bulb.Event.SwitchedOn
      = Except.error "attempt to subtract with overflow" := rfl

/-- C9: the bulb scenario.  From `NotFitted`, `Fit { max_uses: 5 }` yields
exactly `Fitted { max_uses: 5 }` evolving to `Working { Off, 5 }`;
`SwitchOn` there yields exactly `SwitchedOn` evolving to
`Working { On, 4 }`; `SwitchOn` while already on yields no events; from
`Working { Off, 0 }`, `SwitchOn` yields exactly `Blew`, evolving to
`Blown`, which is terminal. -/
theorem bulb_scenario :
    Bulb.initial_state = Bulb.State.NotFitted ∧
      Bulb.decide (Bulb.Command.Fit 5) Bulb.State.NotFitted
        = Except.ok [Bulb.Event.Fitted 5] ∧
      Bulb.evolve Bulb.State.NotFitted (Bulb.Event.Fitted 5)
        = Except.ok (Bulb.State.Working Bulb.Status.Off 5) ∧
      Bulb.decide Bulb.Command.SwitchOn (Bulb.State.Working Bulb.Status.Off 5)
        = Except.ok [Bulb.Event.SwitchedOn] ∧
      Bulb.evolve (Bulb.State.Working Bulb.Status.Off 5) Bulb.Event.SwitchedOn
        = Except.ok (Bulb.State.Working Bulb.Status.On 4) ∧
      Bulb.decide Bulb.Command.SwitchOn (Bulb.State.Working Bulb.Status.On 4)
        = Except.ok [] ∧
      Bulb.decide Bulb.Command.SwitchOn (Bulb.State.Working Bulb.Status.Off 0)
        = Except.ok [Bulb.Event.Blew] ∧
      Bulb.evolve (Bulb.State.Working Bulb.Status.Off 0) Bulb.Event.Blew
        = Except.ok Bulb.State.Blown ∧
      Bulb.is_terminal Bulb.State.Blown = true :=
  ⟨rfl, rfl, rfl, rfl, rfl, rfl, rfl, rfl, rfl⟩

/-- C10: `Bulb::decide` aborts with a fatal error exactly when the command
is `Fit` and the state is not `NotFitted`; every other (command, state)
combination returns an event list without aborting. -/
theorem bulb_decide_panics_iff (c : Bulb.Command) (s : Bulb.State) :
    (∃ err, Bulb.decide c s = Except.error err) ↔
      ((∃ m, c = Bulb.Command.Fit m) ∧ s ≠ Bulb.State.NotFitted) := by
  cases c with
  | Fit m =>
      cases s with
      | NotFitted => simp [Bulb.decide]
      | Working st r => simp [Bulb.decide]
      | Blown => simp [Bulb.decide]
  | SwitchOn =>
      cases s with
      | NotFitted => simp [Bulb.decide]
      | Working st r =>
          cases st with
          | On => simp [Bulb.decide]
          | Off =>
              simp only [Bulb.decide]
              constructor
              · rintro ⟨err, h⟩
                split at h
                · exact absurd h (by simp)
                · split at h
                  · exact absurd h (by simp)
                  · exact absurd h (by simp)
              · rintro ⟨⟨m, hm⟩, _⟩
                exact Bulb.Command.noConfusion hm
      | Blown => simp [Bulb.decide]
  | SwitchOff =>
      cases s with
      | NotFitted => simp [Bulb.decide]
      | Working st r =>
          cases st with
          | On => simp [Bulb.decide]
          | Off => simp [Bulb.decide]
      | Blown => simp [Bulb.decide]

end DecidersRs
